import Mathlib

/-!
Verification of the order-placement engine and admin auth guard of the
jewelry-portfolio e-commerce server.

The embedding translates the TypeScript handlers into pure Lean functions
over an explicit database state:

* `createOrder`       — src/unnamed/part_003 (`createOrder`)
* `updateJewelryItem` — src/server/src/handlers/update_jewelry_item.ts
* `createJewelryItem` — src/server/src/handlers/create_jewelry_item.ts
* `deleteJewelryItem` — src/server/src/handlers/delete_jewelry_item.ts
* `updateOrderStatus` — repository handler `updateOrderStatus`
* `adminLogin`        — src/server/src/handlers/admin_login.ts
* `verifyAdminToken`  — src/server/src/handlers/verify_admin_token.ts
* `handleAdminMutation` — the guarded admin procedures of src/server/src/index.ts

Database `numeric` money columns are modelled as integers in the smallest
currency unit, following the documented contract of src/server/src/schema.ts
("Price in cents to avoid floating point issues", "Total in cents").  The
actual `parseFloat`/binary64 accumulation performed in lines 41-46 of
src/unnamed/part_003 is modelled separately and exactly (`totalAmountFl`
below) in order to analyse its deviation from exact arithmetic.
Display-only string columns that no claim touches (description, materials,
category, image_url, timestamps) are elided from the row types.
-/

/-- Status enum of the `orders` table (`orderStatusSchema` in schema.ts). -/
inductive OrderStatus where
  | pending
  | processing
  | shipped
  | delivered
  | cancelled
deriving DecidableEq

/-- Row of `jewelry_items` (fields used by the verified handlers). -/
structure JewelryItem where
  id : Int
  name : String
  price : Int
  stock_quantity : Int
  is_featured : Bool
deriving DecidableEq

/-- Row of `cart_items`. -/
structure CartItem where
  id : Int
  session_id : String
  jewelry_item_id : Int
  quantity : Int
deriving DecidableEq

/-- Row of `orders`. -/
structure Order where
  id : Int
  session_id : String
  customer_name : String
  customer_email : String
  customer_phone : Option String
  shipping_address : String
  billing_address : Option String
  total_amount : Int
  status : OrderStatus
  notes : Option String
deriving DecidableEq

/-- Row of `order_items`. -/
structure OrderItem where
  id : Int
  order_id : Int
  jewelry_item_id : Int
  quantity : Int
  price_at_time : Int
deriving DecidableEq

/-- Row of `admin_users`. -/
structure AdminUser where
  id : Int
  username : String
  email : String
  password_hash : String
deriving DecidableEq

/-- The relational store, with the serial-id counters of the `serial`
primary-key columns made explicit. -/
structure DB where
  jewelryItems : List JewelryItem
  cartItems : List CartItem
  orders : List Order
  orderItems : List OrderItem
  adminUsers : List AdminUser
  nextJewelryItemId : Int
  nextOrderId : Int
  nextOrderItemId : Int
deriving DecidableEq

/-- `CreateOrderInput` of schema.ts. -/
structure CreateOrderInput where
  session_id : String
  customer_name : String
  customer_email : String
  customer_phone : Option String
  shipping_address : String
  billing_address : Option String
  notes : Option String
deriving DecidableEq

/-- Return value of `createOrder`: the inserted order together with its
inserted order items (`OrderWithItems`, with the denormalised jewelry
snapshots elided). -/
structure OrderWithItems where
  order : Order
  items : List OrderItem
deriving DecidableEq

/-- Step 1 of `createOrder` (src/unnamed/part_003 lines 9-27): the cart rows
of the session inner-joined with their jewelry item. -/
def sessionLines (db : DB) (sid : String) : List (CartItem × JewelryItem) :=
  db.cartItems.filterMap fun c =>
    if c.session_id = sid then
      (db.jewelryItems.find? fun j => j.id == c.jewelry_item_id).map fun j => (c, j)
    else none

/-- Contribution of one joined cart line to the order total
(price of the catalog item times the ordered quantity). -/
def lineTotal (p : CartItem × JewelryItem) : Int :=
  p.2.price * p.1.quantity

/-- Step 4c of `createOrder` (lines 83-90): for each cart line, set
`stock_quantity` to `stock_quantity - quantity` on every jewelry row whose id
equals the line's item id. -/
def applyStockDecrements (lines : List (CartItem × JewelryItem))
    (items : List JewelryItem) : List JewelryItem :=
  lines.foldl
    (fun its p => its.map fun j =>
      if j.id = p.2.id then
        { j with stock_quantity := j.stock_quantity - p.1.quantity }
      else j)
    items

/-- Step 4b of `createOrder` (lines 69-79): one inserted `order_items` row per
cart line, with serial ids and `price_at_time` copied from the joined
catalog price captured in step 1. -/
def mkOrderItems (orderId : Int) (startId : Int) :
    List (CartItem × JewelryItem) → List OrderItem
  | [] => []
  | p :: ps =>
      { id := startId
        order_id := orderId
        jewelry_item_id := p.2.id
        quantity := p.1.quantity
        price_at_time := p.2.price } :: mkOrderItems orderId (startId + 1) ps

/-- The `createOrder` handler of src/unnamed/part_003.  Returns the
`OrderWithItems` response (or `none` for the empty-cart and
insufficient-stock rejections, which the source signals by `return null`)
together with the post-state of the database.  The inserted order's status
is the `orders` table default `pending`. -/
def createOrder (input : CreateOrderInput) (db : DB) :
    Option OrderWithItems × DB :=
  let lines := sessionLines db input.session_id
  if lines.isEmpty then (none, db)
  else if lines.any (fun p => decide (p.2.stock_quantity < p.1.quantity)) then
    (none, db)
  else
    let totalAmount := (lines.map lineTotal).sum
    let order : Order :=
      { id := db.nextOrderId
        session_id := input.session_id
        customer_name := input.customer_name
        customer_email := input.customer_email
        customer_phone := input.customer_phone
        shipping_address := input.shipping_address
        billing_address := input.billing_address
        total_amount := totalAmount
        status := OrderStatus.pending
        notes := input.notes }
    let newOrderItems := mkOrderItems order.id db.nextOrderItemId lines
    let db' : DB :=
      { db with
        orders := db.orders ++ [order]
        orderItems := db.orderItems ++ newOrderItems
        jewelryItems := applyStockDecrements lines db.jewelryItems
        cartItems := db.cartItems.filter fun c => c.session_id != input.session_id
        nextOrderId := db.nextOrderId + 1
        nextOrderItemId := db.nextOrderItemId + newOrderItems.length }
    (some { order := order, items := newOrderItems }, db')

/-- Membership description of the joined cart lines. -/
theorem mem_sessionLines {db : DB} {sid : String} {p : CartItem × JewelryItem} :
    p ∈ sessionLines db sid ↔
      p.1 ∈ db.cartItems ∧ p.1.session_id = sid ∧
        (db.jewelryItems.find? fun j => j.id == p.1.jewelry_item_id) = some p.2 := by
  unfold sessionLines
  rw [List.mem_filterMap]
  constructor
  · rintro ⟨c, hc, hmap⟩
    by_cases hs : c.session_id = sid
    · rw [if_pos hs, Option.map_eq_some'] at hmap
      obtain ⟨j, hj, hpj⟩ := hmap
      subst hpj
      exact ⟨hc, hs, hj⟩
    · simp [hs] at hmap
  · rintro ⟨hc, hs, hj⟩
    exact ⟨p.1, hc, by simp [hs, hj]⟩

/-- The item of a joined cart line carries the id the cart row references. -/
theorem sessionLines_id_eq {db : DB} {sid : String} {p : CartItem × JewelryItem}
    (hp : p ∈ sessionLines db sid) : p.2.id = p.1.jewelry_item_id := by
  have h := (mem_sessionLines.mp hp).2.2
  have := List.find?_some h
  simpa using this

/-- When no session line is short on stock, the validation loop of step 2
finds nothing to reject. -/
theorem sessionLines_any_eq_false {db : DB} {sid : String}
    (h : ∀ p ∈ sessionLines db sid, p.1.quantity ≤ p.2.stock_quantity) :
    (sessionLines db sid).any
      (fun p => decide (p.2.stock_quantity < p.1.quantity)) = false := by
  rw [List.any_eq_false]
  intro p hp
  simpa using not_lt.mpr (h p hp)

/-- Shape of a successful `createOrder` run: with a non-empty joined cart in
which no line is short on stock, the handler returns the composed order and
performs exactly the transaction of step 4. -/
theorem createOrder_eq_of_valid (input : CreateOrderInput) (db : DB)
    (hne : sessionLines db input.session_id ≠ [])
    (hok : ∀ p ∈ sessionLines db input.session_id,
      p.1.quantity ≤ p.2.stock_quantity) :
    createOrder input db =
      (some { order :=
                { id := db.nextOrderId
                  session_id := input.session_id
                  customer_name := input.customer_name
                  customer_email := input.customer_email
                  customer_phone := input.customer_phone
                  shipping_address := input.shipping_address
                  billing_address := input.billing_address
                  total_amount := ((sessionLines db input.session_id).map lineTotal).sum
                  status := OrderStatus.pending
                  notes := input.notes }
              items := mkOrderItems db.nextOrderId db.nextOrderItemId
                (sessionLines db input.session_id) },
        { db with
          orders := db.orders ++
            [{ id := db.nextOrderId
               session_id := input.session_id
               customer_name := input.customer_name
               customer_email := input.customer_email
               customer_phone := input.customer_phone
               shipping_address := input.shipping_address
               billing_address := input.billing_address
               total_amount := ((sessionLines db input.session_id).map lineTotal).sum
               status := OrderStatus.pending
               notes := input.notes }]
          orderItems := db.orderItems ++
            mkOrderItems db.nextOrderId db.nextOrderItemId
              (sessionLines db input.session_id)
          jewelryItems := applyStockDecrements (sessionLines db input.session_id)
            db.jewelryItems
          cartItems := db.cartItems.filter
            (fun c => c.session_id != input.session_id)
          nextOrderId := db.nextOrderId + 1
          nextOrderItemId := db.nextOrderItemId +
            (mkOrderItems db.nextOrderId db.nextOrderItemId
              (sessionLines db input.session_id)).length }) := by
  have hempty : (sessionLines db input.session_id).isEmpty = false := by
    cases hsl : sessionLines db input.session_id with
    | nil => exact absurd hsl hne
    | cons a l => rfl
  simp only [createOrder, hempty, sessionLines_any_eq_false hok,
    Bool.false_eq_true, if_false]

/-- Hypotheses of the stocked-cart claims, phrased on the cart rows
themselves: every line of the session references an existing catalog item
whose live stock covers the ordered quantity. -/
def cartFullyStocked (db : DB) (sid : String) : Prop :=
  ∀ c ∈ db.cartItems, c.session_id = sid →
    ∃ j, (db.jewelryItems.find? fun j => j.id == c.jewelry_item_id) = some j ∧
      c.quantity ≤ j.stock_quantity

instance (db : DB) (sid : String) : Decidable (cartFullyStocked db sid) := by
  unfold cartFullyStocked
  infer_instance

/-- A fully stocked cart line set has no short joined line. -/
theorem cartFullyStocked_lines {db : DB} {sid : String}
    (h : cartFullyStocked db sid) :
    ∀ p ∈ sessionLines db sid, p.1.quantity ≤ p.2.stock_quantity := by
  intro p hp
  obtain ⟨hmem, hsid, hfind⟩ := mem_sessionLines.mp hp
  obtain ⟨j, hj, hle⟩ := h p.1 hmem hsid
  rw [hfind] at hj
  cases hj
  exact hle

/-- A non-empty, fully stocked cart yields a non-empty joined line set. -/
theorem sessionLines_ne_nil {db : DB} {sid : String}
    (hne : ∃ c ∈ db.cartItems, c.session_id = sid)
    (h : cartFullyStocked db sid) :
    sessionLines db sid ≠ [] := by
  obtain ⟨c, hc, hsid⟩ := hne
  obtain ⟨j, hj, _⟩ := h c hc hsid
  intro hnil
  have : (c, j) ∈ sessionLines db sid := mem_sessionLines.mpr ⟨hc, hsid, hj⟩
  rw [hnil] at this
  exact absurd this (List.not_mem_nil _)

/-- When the session has no cart rows, the join of step 1 is empty. -/
theorem sessionLines_eq_nil_of_no_rows {db : DB} {sid : String}
    (h : ∀ c ∈ db.cartItems, c.session_id ≠ sid) :
    sessionLines db sid = [] := by
  unfold sessionLines
  rw [List.filterMap_eq_nil_iff]
  intro c hc
  rw [if_neg (h c hc)]

/-- Rejection shape shared by the empty-cart claims: no session rows means
`createOrder` returns `null` and the whole database is untouched. -/
theorem createOrder_eq_none_of_empty {input : CreateOrderInput} {db : DB}
    (h : ∀ c ∈ db.cartItems, c.session_id ≠ input.session_id) :
    createOrder input db = (none, db) := by
  have hsl := sessionLines_eq_nil_of_no_rows h
  simp [createOrder, hsl]

/-- Rejection shape shared by the insufficient-stock claims: a joined line
whose quantity exceeds the live stock makes `createOrder` return `null`
with the whole database untouched. -/
theorem createOrder_eq_none_of_short {input : CreateOrderInput} {db : DB}
    (h : ∃ p ∈ sessionLines db input.session_id,
      p.2.stock_quantity < p.1.quantity) :
    createOrder input db = (none, db) := by
  obtain ⟨p, hmem, hlt⟩ := h
  have hany : (sessionLines db input.session_id).any
      (fun p => decide (p.2.stock_quantity < p.1.quantity)) = true :=
    List.any_eq_true.mpr ⟨p, hmem, by simpa using hlt⟩
  have hne : (sessionLines db input.session_id).isEmpty = false := by
    cases hsl : sessionLines db input.session_id with
    | nil => rw [hsl] at hmem; cases hmem
    | cons a l => rfl
  simp [createOrder, hne, hany]

/-- C8: for every session whose cart contains no lines, `createOrder`
rejects (`EmptyCart`, signalled as `null`) and causes zero side effects:
no order or order line is created, no stock changes, and no cart state
changes — the database after the call is the database before it. -/
theorem emptyCart_rejected_without_side_effects
    (input : CreateOrderInput) (db : DB)
    (h : ∀ c ∈ db.cartItems, c.session_id ≠ input.session_id) :
    createOrder input db = (none, db) :=
  createOrder_eq_none_of_empty h

/-- Witness for the empty-cart rejection claim on a concrete database whose
only cart row belongs to a different session. -/
theorem emptyCart_rejected_without_side_effects_witness :
    (∀ c ∈ (DB.mk [⟨1, "Ring", 1999, 5, true⟩] [⟨1, "other", 1, 1⟩] [] [] [] 2 1 1).cartItems,
        c.session_id ≠ "sess-1") ∧
      createOrder ⟨"sess-1", "John Doe", "john@example.com", none, "123 Main St", none, none⟩
          (DB.mk [⟨1, "Ring", 1999, 5, true⟩] [⟨1, "other", 1, 1⟩] [] [] [] 2 1 1) =
        (none, DB.mk [⟨1, "Ring", 1999, 5, true⟩] [⟨1, "other", 1, 1⟩] [] [] [] 2 1 1) :=
  ⟨by decide,
    emptyCart_rejected_without_side_effects
      ⟨"sess-1", "John Doe", "john@example.com", none, "123 Main St", none, none⟩
      (DB.mk [⟨1, "Ring", 1999, 5, true⟩] [⟨1, "other", 1, 1⟩] [] [] [] 2 1 1)
      (by decide)⟩

/-- C2: whenever at least one cart line of the session asks for more than
the catalog item's current `stock_quantity`, `createOrder` rejects the
entire operation (`InsufficientStock`, signalled as `null`) before any
mutation: the cart is unchanged, no order or order-line row is created, and
no catalog stock changes — the database after the call is the database
before it. -/
theorem insufficientStock_rejected_without_side_effects
    (input : CreateOrderInput) (db : DB)
    (h : ∃ p ∈ sessionLines db input.session_id,
      p.2.stock_quantity < p.1.quantity) :
    createOrder input db = (none, db) :=
  createOrder_eq_none_of_short h

/-- Witness for the insufficient-stock rejection claim: one cart line
ordering 5 units of an item with stock 1. -/
theorem insufficientStock_rejected_without_side_effects_witness :
    (∃ p ∈ sessionLines (DB.mk [⟨1, "Ring", 1999, 1, false⟩] [⟨1, "sess-1", 1, 5⟩] [] [] [] 2 1 1) "sess-1",
        p.2.stock_quantity < p.1.quantity) ∧
      createOrder ⟨"sess-1", "John Doe", "john@example.com", none, "123 Main St", none, none⟩
          (DB.mk [⟨1, "Ring", 1999, 1, false⟩] [⟨1, "sess-1", 1, 5⟩] [] [] [] 2 1 1) =
        (none, DB.mk [⟨1, "Ring", 1999, 1, false⟩] [⟨1, "sess-1", 1, 5⟩] [] [] [] 2 1 1) :=
  ⟨by decide,
    insufficientStock_rejected_without_side_effects
      ⟨"sess-1", "John Doe", "john@example.com", none, "123 Main St", none, none⟩
      (DB.mk [⟨1, "Ring", 1999, 1, false⟩] [⟨1, "sess-1", 1, 5⟩] [] [] [] 2 1 1)
      (by decide)⟩

/-- C1: for every cart with at least one line in which every line's
quantity is covered by the catalog item's current stock, `createOrder`
succeeds, the returned order's `total_amount` is the sum of catalog price
times quantity over the joined cart lines as read at the moment of the
call, and afterwards the session's cart holds no lines. -/
theorem createOrder_success_total_and_clears_cart
    (input : CreateOrderInput) (db : DB)
    (hne : ∃ c ∈ db.cartItems, c.session_id = input.session_id)
    (hstock : cartFullyStocked db input.session_id) :
    ∃ ov, (createOrder input db).1 = some ov ∧
      ov.order.total_amount =
        ((sessionLines db input.session_id).map lineTotal).sum ∧
      (createOrder input db).2.cartItems.filter
        (fun c => c.session_id == input.session_id) = [] := by
  have h1 := sessionLines_ne_nil hne hstock
  have h2 := cartFullyStocked_lines hstock
  rw [createOrder_eq_of_valid input db h1 h2]
  refine ⟨_, rfl, rfl, ?_⟩
  rw [List.filter_filter]
  rw [List.filter_eq_nil_iff]
  intro c _
  cases h : c.session_id == input.session_id <;> simp [h, bne]

/-- Witness for the successful-order claim: two stocked cart lines
(price 1999 × qty 2 and price 599 × qty 1). -/
theorem createOrder_success_total_and_clears_cart_witness :
    (∃ c ∈ (DB.mk [⟨1, "Ring", 1999, 5, true⟩, ⟨2, "Earrings", 599, 10, false⟩]
        [⟨1, "sess-1", 1, 2⟩, ⟨2, "sess-1", 2, 1⟩] [] [] [] 3 1 1).cartItems,
        c.session_id = "sess-1") ∧
      cartFullyStocked (DB.mk [⟨1, "Ring", 1999, 5, true⟩, ⟨2, "Earrings", 599, 10, false⟩]
        [⟨1, "sess-1", 1, 2⟩, ⟨2, "sess-1", 2, 1⟩] [] [] [] 3 1 1) "sess-1" ∧
      ∃ ov, (createOrder ⟨"sess-1", "John Doe", "john@example.com", none, "123 Main St", none, none⟩
          (DB.mk [⟨1, "Ring", 1999, 5, true⟩, ⟨2, "Earrings", 599, 10, false⟩]
            [⟨1, "sess-1", 1, 2⟩, ⟨2, "sess-1", 2, 1⟩] [] [] [] 3 1 1)).1 = some ov ∧
        ov.order.total_amount =
          ((sessionLines (DB.mk [⟨1, "Ring", 1999, 5, true⟩, ⟨2, "Earrings", 599, 10, false⟩]
            [⟨1, "sess-1", 1, 2⟩, ⟨2, "sess-1", 2, 1⟩] [] [] [] 3 1 1) "sess-1").map lineTotal).sum ∧
        (createOrder ⟨"sess-1", "John Doe", "john@example.com", none, "123 Main St", none, none⟩
          (DB.mk [⟨1, "Ring", 1999, 5, true⟩, ⟨2, "Earrings", 599, 10, false⟩]
            [⟨1, "sess-1", 1, 2⟩, ⟨2, "sess-1", 2, 1⟩] [] [] [] 3 1 1)).2.cartItems.filter
          (fun c => c.session_id == "sess-1") = [] :=
  ⟨by decide, by decide,
    createOrder_success_total_and_clears_cart
      ⟨"sess-1", "John Doe", "john@example.com", none, "123 Main St", none, none⟩
      (DB.mk [⟨1, "Ring", 1999, 5, true⟩, ⟨2, "Earrings", 599, 10, false⟩]
        [⟨1, "sess-1", 1, 2⟩, ⟨2, "sess-1", 2, 1⟩] [] [] [] 3 1 1)
      (by decide) (by decide)⟩

/-- C10 (implicit): the public `createOrder` interface returns the identical
value (`null`) for an empty-cart rejection and for an insufficient-stock
rejection, so a caller cannot distinguish the two failure causes from the
result. -/
theorem rejection_results_indistinguishable
    (input : CreateOrderInput) (dbEmpty dbShort : DB)
    (hEmpty : ∀ c ∈ dbEmpty.cartItems, c.session_id ≠ input.session_id)
    (hShort : ∃ p ∈ sessionLines dbShort input.session_id,
      p.2.stock_quantity < p.1.quantity) :
    (createOrder input dbEmpty).1 = none ∧
      (createOrder input dbShort).1 = none ∧
      (createOrder input dbEmpty).1 = (createOrder input dbShort).1 := by
  have h1 := createOrder_eq_none_of_empty hEmpty
  have h2 := createOrder_eq_none_of_short hShort
  rw [h1, h2]
  exact ⟨rfl, rfl, rfl⟩

/-- Witness for the indistinguishable-rejections claim, at one empty-cart
database and one short-stock database. -/
theorem rejection_results_indistinguishable_witness :
    (∀ c ∈ (DB.mk [⟨1, "Ring", 1999, 5, true⟩] [⟨1, "other", 1, 1⟩] [] [] [] 2 1 1).cartItems,
        c.session_id ≠ "sess-1") ∧
      (∃ p ∈ sessionLines (DB.mk [⟨1, "Ring", 1999, 1, false⟩] [⟨1, "sess-1", 1, 5⟩] [] [] [] 2 1 1) "sess-1",
        p.2.stock_quantity < p.1.quantity) ∧
      (createOrder ⟨"sess-1", "John Doe", "john@example.com", none, "123 Main St", none, none⟩
          (DB.mk [⟨1, "Ring", 1999, 5, true⟩] [⟨1, "other", 1, 1⟩] [] [] [] 2 1 1)).1 = none ∧
      (createOrder ⟨"sess-1", "John Doe", "john@example.com", none, "123 Main St", none, none⟩
          (DB.mk [⟨1, "Ring", 1999, 1, false⟩] [⟨1, "sess-1", 1, 5⟩] [] [] [] 2 1 1)).1 = none :=
  ⟨by decide, by decide,
    (rejection_results_indistinguishable
      ⟨"sess-1", "John Doe", "john@example.com", none, "123 Main St", none, none⟩
      (DB.mk [⟨1, "Ring", 1999, 5, true⟩] [⟨1, "other", 1, 1⟩] [] [] [] 2 1 1)
      (DB.mk [⟨1, "Ring", 1999, 1, false⟩] [⟨1, "sess-1", 1, 5⟩] [] [] [] 2 1 1)
      (by decide) (by decide)).1,
    (rejection_results_indistinguishable
      ⟨"sess-1", "John Doe", "john@example.com", none, "123 Main St", none, none⟩
      (DB.mk [⟨1, "Ring", 1999, 5, true⟩] [⟨1, "other", 1, 1⟩] [] [] [] 2 1 1)
      (DB.mk [⟨1, "Ring", 1999, 1, false⟩] [⟨1, "sess-1", 1, 5⟩] [] [] [] 2 1 1)
      (by decide) (by decide)).2.1⟩

/-- Total quantity the cart lines order for the catalog item with id `i`. -/
def lineQtySum (lines : List (CartItem × JewelryItem)) (i : Int) : Int :=
  (lines.map fun p => if p.2.id = i then p.1.quantity else 0).sum

/-- Closed form of the per-line stock-decrement loop: every jewelry row has
its stock reduced by the total quantity the lines order for its id. -/
theorem applyStockDecrements_eq_map (lines : List (CartItem × JewelryItem))
    (items : List JewelryItem) :
    applyStockDecrements lines items =
      items.map fun j =>
        { j with stock_quantity := j.stock_quantity - lineQtySum lines j.id } := by
  induction lines generalizing items with
  | nil =>
      have hfun : (fun j : JewelryItem =>
          { j with stock_quantity := j.stock_quantity - lineQtySum [] j.id }) =
            fun j => j := by
        funext j
        simp [lineQtySum]
      rw [hfun]
      simp [applyStockDecrements]
  | cons p ps ih =>
      have hstep : applyStockDecrements (p :: ps) items =
          applyStockDecrements ps (items.map fun j =>
            if j.id = p.2.id then
              { j with stock_quantity := j.stock_quantity - p.1.quantity }
            else j) := rfl
      rw [hstep, ih, List.map_map]
      congr 1
      funext j
      by_cases hid : j.id = p.2.id
      · simp only [Function.comp, hid, if_pos rfl]
        simp [lineQtySum, hid, sub_sub]
      · have hne : ¬p.2.id = j.id := fun h => hid h.symm
        simp only [Function.comp, if_neg hid]
        simp [lineQtySum, hne]

/-- Cart lines that never reference id `i` contribute nothing to its
decrement. -/
theorem lineQtySum_eq_zero {lines : List (CartItem × JewelryItem)} {i : Int}
    (h : ∀ p ∈ lines, p.2.id ≠ i) : lineQtySum lines i = 0 := by
  unfold lineQtySum
  apply List.sum_eq_zero
  intro x hx
  rw [List.mem_map] at hx
  obtain ⟨p, hp, hpx⟩ := hx
  rw [if_neg (h p hp)] at hpx
  exact hpx.symm

/-- With distinct item ids across the lines, the decrement for a line's
item is exactly that line's quantity. -/
theorem lineQtySum_eq_of_nodup {lines : List (CartItem × JewelryItem)}
    {p : CartItem × JewelryItem}
    (hnd : (lines.map fun q => q.2.id).Nodup) (hp : p ∈ lines) :
    lineQtySum lines p.2.id = p.1.quantity := by
  induction lines with
  | nil => cases hp
  | cons q qs ih =>
      rw [List.map_cons, List.nodup_cons] at hnd
      rcases List.mem_cons.mp hp with hq | hq
      · subst hq
        have hzero : lineQtySum qs p.2.id = 0 := by
          apply lineQtySum_eq_zero
          intro r hr hri
          exact hnd.1 (hri ▸ List.mem_map_of_mem (fun q => q.2.id) hr)
        simp [lineQtySum] at hzero ⊢
        simp [hzero]
      · have hne : ¬q.2.id = p.2.id := by
          intro h
          exact hnd.1 (h ▸ List.mem_map_of_mem (fun q => q.2.id) hq)
        have := ih hnd.2 hq
        simp only [lineQtySum, List.map_cons, List.sum_cons, if_neg hne] at this ⊢
        simpa using this

/-- Searching the decremented rows is searching the original rows and then
decrementing (the update does not move or change ids). -/
theorem find?_applyStockDecrements (lines : List (CartItem × JewelryItem))
    (items : List JewelryItem) (i : Int) :
    (applyStockDecrements lines items).find? (fun j => j.id == i) =
      (items.find? fun j => j.id == i).map
        (fun j => { j with stock_quantity := j.stock_quantity - lineQtySum lines j.id }) := by
  rw [applyStockDecrements_eq_map]
  induction items with
  | nil => rfl
  | cons j js ih =>
      by_cases h : j.id = i
      · simp [List.find?, h]
      · have hb : (j.id == i) = false := by simpa using h
        simp only [List.map_cons, List.find?, hb]
        exact ih

/-- C3 (amended): after every successful `createOrder` call in which the
session's cart holds at most one line per catalog item, each catalog item
referenced by a cart line has its `stock_quantity` decreased by exactly the
ordered quantity, and — with the jewelry table's primary-key uniqueness and
the `stock_quantity ≥ 0` invariant on entry — no stock quantity in the
resulting database is negative.  The one-line-per-item proviso is the
CartLine uniqueness the spec's data model postulates; `cart_items` itself
carries only a serial primary key, so duplicate lines are representable
states, and on them the unconditional decrements of lines 83-90 can drive
stock negative (see the counterexample below). -/
theorem stock_decremented_exactly_and_nonnegative
    (input : CreateOrderInput) (db : DB)
    (hne : ∃ c ∈ db.cartItems, c.session_id = input.session_id)
    (hstock : cartFullyStocked db input.session_id)
    (hndLines : ((sessionLines db input.session_id).map fun p => p.2.id).Nodup)
    (hndItems : (db.jewelryItems.map fun j => j.id).Nodup)
    (hinv : ∀ j ∈ db.jewelryItems, 0 ≤ j.stock_quantity) :
    (∀ p ∈ sessionLines db input.session_id,
      ((createOrder input db).2.jewelryItems.find? fun j => j.id == p.2.id) =
        some { p.2 with stock_quantity := p.2.stock_quantity - p.1.quantity }) ∧
    (∀ j ∈ (createOrder input db).2.jewelryItems, 0 ≤ j.stock_quantity) := by
  have h1 := sessionLines_ne_nil hne hstock
  have h2 := cartFullyStocked_lines hstock
  rw [createOrder_eq_of_valid input db h1 h2]
  constructor
  · intro p hp
    have hfind : (db.jewelryItems.find? fun j => j.id == p.2.id) = some p.2 := by
      have h := (mem_sessionLines.mp hp).2.2
      rw [sessionLines_id_eq hp]
      exact h
    show ((applyStockDecrements (sessionLines db input.session_id)
        db.jewelryItems).find? fun j => j.id == p.2.id) = _
    rw [find?_applyStockDecrements, hfind]
    rw [Option.map_some']
    rw [lineQtySum_eq_of_nodup hndLines hp]
  · intro j hj
    show 0 ≤ j.stock_quantity
    have hj' : j ∈ applyStockDecrements (sessionLines db input.session_id)
        db.jewelryItems := hj
    rw [applyStockDecrements_eq_map, List.mem_map] at hj'
    obtain ⟨j0, hj0, hj0j⟩ := hj'
    subst hj0j
    show 0 ≤ j0.stock_quantity - lineQtySum (sessionLines db input.session_id) j0.id
    by_cases hex : ∃ p ∈ sessionLines db input.session_id, p.2.id = j0.id
    · obtain ⟨p, hp, hpid⟩ := hex
      have hqty := lineQtySum_eq_of_nodup hndLines hp
      have hmem2 : p.2 ∈ db.jewelryItems :=
        List.mem_of_find?_eq_some (mem_sessionLines.mp hp).2.2
      have hpj : p.2 = j0 :=
        List.inj_on_of_nodup_map hndItems hmem2 hj0 hpid
      rw [← hpj, hqty]
      have := h2 p hp
      omega
    · push_neg at hex
      rw [lineQtySum_eq_zero hex]
      have := hinv j0 hj0
      omega

/-- Witness for the stock-decrement claim on the two-line stocked cart. -/
theorem stock_decremented_exactly_and_nonnegative_witness :
    (∃ c ∈ (DB.mk [⟨1, "Ring", 1999, 5, true⟩, ⟨2, "Earrings", 599, 10, false⟩]
        [⟨1, "sess-1", 1, 2⟩, ⟨2, "sess-1", 2, 1⟩] [] [] [] 3 1 1).cartItems,
        c.session_id = "sess-1") ∧
      (∀ p ∈ sessionLines (DB.mk [⟨1, "Ring", 1999, 5, true⟩, ⟨2, "Earrings", 599, 10, false⟩]
          [⟨1, "sess-1", 1, 2⟩, ⟨2, "sess-1", 2, 1⟩] [] [] [] 3 1 1) "sess-1",
        ((createOrder ⟨"sess-1", "John Doe", "john@example.com", none, "123 Main St", none, none⟩
            (DB.mk [⟨1, "Ring", 1999, 5, true⟩, ⟨2, "Earrings", 599, 10, false⟩]
              [⟨1, "sess-1", 1, 2⟩, ⟨2, "sess-1", 2, 1⟩] [] [] [] 3 1 1)).2.jewelryItems.find?
          fun j => j.id == p.2.id) =
          some { p.2 with stock_quantity := p.2.stock_quantity - p.1.quantity }) ∧
      (∀ j ∈ (createOrder ⟨"sess-1", "John Doe", "john@example.com", none, "123 Main St", none, none⟩
          (DB.mk [⟨1, "Ring", 1999, 5, true⟩, ⟨2, "Earrings", 599, 10, false⟩]
            [⟨1, "sess-1", 1, 2⟩, ⟨2, "sess-1", 2, 1⟩] [] [] [] 3 1 1)).2.jewelryItems,
        0 ≤ j.stock_quantity) :=
  ⟨by decide,
    (stock_decremented_exactly_and_nonnegative
      ⟨"sess-1", "John Doe", "john@example.com", none, "123 Main St", none, none⟩
      (DB.mk [⟨1, "Ring", 1999, 5, true⟩, ⟨2, "Earrings", 599, 10, false⟩]
        [⟨1, "sess-1", 1, 2⟩, ⟨2, "sess-1", 2, 1⟩] [] [] [] 3 1 1)
      (by decide) (by decide) (by decide) (by decide) (by decide)).1,
    (stock_decremented_exactly_and_nonnegative
      ⟨"sess-1", "John Doe", "john@example.com", none, "123 Main St", none, none⟩
      (DB.mk [⟨1, "Ring", 1999, 5, true⟩, ⟨2, "Earrings", 599, 10, false⟩]
        [⟨1, "sess-1", 1, 2⟩, ⟨2, "sess-1", 2, 1⟩] [] [] [] 3 1 1)
      (by decide) (by decide) (by decide) (by decide) (by decide)).2⟩

/-- Counterexample to the unconditional stock claim: the `cart_items`
schema (serial primary key only, no unique constraint on
(session_id, jewelry_item_id)) admits two cart lines of the same session
for the same item — a state the repository's own `removeFromCart` test
constructs.  On a cart holding two quantity-2 lines for an item with stock
3, every line passes the per-line validation of lines 34-39, `createOrder`
succeeds, and the two unconditional decrements of lines 83-90 leave
`stock_quantity = -1`: the item is not decremented by the per-line ordered
quantity, and the nonnegativity invariant is broken. -/
theorem duplicate_cart_lines_drive_stock_negative :
    (∀ p ∈ sessionLines (DB.mk [⟨1, "Ring", 1999, 3, false⟩]
        [⟨1, "sess-1", 1, 2⟩, ⟨2, "sess-1", 1, 2⟩] [] [] [] 2 1 1) "sess-1",
      p.1.quantity ≤ p.2.stock_quantity) ∧
    (createOrder ⟨"sess-1", "John Doe", "john@example.com", none, "123 Main St", none, none⟩
        (DB.mk [⟨1, "Ring", 1999, 3, false⟩]
          [⟨1, "sess-1", 1, 2⟩, ⟨2, "sess-1", 1, 2⟩] [] [] [] 2 1 1)).1.isSome = true ∧
    ((createOrder ⟨"sess-1", "John Doe", "john@example.com", none, "123 Main St", none, none⟩
        (DB.mk [⟨1, "Ring", 1999, 3, false⟩]
          [⟨1, "sess-1", 1, 2⟩, ⟨2, "sess-1", 1, 2⟩] [] [] [] 2 1 1)).2.jewelryItems.find?
      fun j => j.id == 1) = some ⟨1, "Ring", 1999, -1, false⟩ := by
  refine ⟨by decide, by decide, by decide⟩

/-- `UpdateJewelryItemInput` of schema.ts: the item id plus the optional
fields the admin may change (display-only string columns elided). -/
structure UpdateJewelryItemInput where
  id : Int
  name : Option String
  price : Option Int
  stock_quantity : Option Int
  is_featured : Option Bool
deriving DecidableEq

/-- Field-wise application of the provided update values
(update_jewelry_item.ts lines 29-56). -/
def applyItemUpdate (u : UpdateJewelryItemInput) (j : JewelryItem) : JewelryItem :=
  { j with
    name := u.name.getD j.name
    price := u.price.getD j.price
    stock_quantity := u.stock_quantity.getD j.stock_quantity
    is_featured := u.is_featured.getD j.is_featured }

/-- The `updateJewelryItem` handler of
src/server/src/handlers/update_jewelry_item.ts: with no fields to update it
just reads the row back; otherwise it updates the matching row of
`jewelry_items` (and only that table) and returns the updated row, or
`null` when the id matches nothing. -/
def updateJewelryItem (u : UpdateJewelryItemInput) (db : DB) :
    Option JewelryItem × DB :=
  if u.name = none ∧ u.price = none ∧ u.stock_quantity = none ∧
      u.is_featured = none then
    (db.jewelryItems.find? fun j => j.id == u.id, db)
  else
    match db.jewelryItems.find? fun j => j.id == u.id with
    | none => (none, db)
    | some j =>
        (some (applyItemUpdate u j),
          { db with
            jewelryItems := db.jewelryItems.map fun x =>
              if x.id == u.id then applyItemUpdate u x else x })

/-- Every row produced by the order-items insertion loop snapshots the
price, quantity and item id of one joined cart line. -/
theorem mem_mkOrderItems {orderId startId : Int}
    {lines : List (CartItem × JewelryItem)} {oi : OrderItem}
    (h : oi ∈ mkOrderItems orderId startId lines) :
    ∃ p ∈ lines, oi.jewelry_item_id = p.2.id ∧ oi.quantity = p.1.quantity ∧
      oi.price_at_time = p.2.price := by
  induction lines generalizing startId with
  | nil => cases h
  | cons p ps ih =>
      rcases List.mem_cons.mp h with hh | ht
      · exact ⟨p, List.mem_cons_self p ps, by rw [hh], by rw [hh], by rw [hh]⟩
      · obtain ⟨q, hq, h1, h2, h3⟩ := ih ht
        exact ⟨q, List.mem_cons_of_mem p hq, h1, h2, h3⟩

/-- C9: on a successful `createOrder`, every order-line row either already
existed or snapshots the joined catalog price captured in step 1
(`price_at_time = catalogItem.price`, not re-read at write time); and an
admin `updateJewelryItem` call — in particular a price edit — never touches
the `orders` or `order_items` tables, so existing `price_at_time` values
and order totals are unchanged by later catalog edits. -/
theorem price_at_time_snapshots_and_catalog_edits_frame
    (input : CreateOrderInput) (db : DB)
    (u : UpdateJewelryItemInput) (db2 : DB)
    (hne : ∃ c ∈ db.cartItems, c.session_id = input.session_id)
    (hstock : cartFullyStocked db input.session_id) :
    (∀ oi ∈ (createOrder input db).2.orderItems,
      oi ∈ db.orderItems ∨
        ∃ p ∈ sessionLines db input.session_id,
          oi.jewelry_item_id = p.2.id ∧ oi.quantity = p.1.quantity ∧
            oi.price_at_time = p.2.price) ∧
    (updateJewelryItem u db2).2.orderItems = db2.orderItems ∧
    (updateJewelryItem u db2).2.orders = db2.orders := by
  refine ⟨?_, ?_, ?_⟩
  · have h1 := sessionLines_ne_nil hne hstock
    have h2 := cartFullyStocked_lines hstock
    rw [createOrder_eq_of_valid input db h1 h2]
    intro oi hoi
    rcases List.mem_append.mp hoi with hold | hnew
    · exact Or.inl hold
    · exact Or.inr (mem_mkOrderItems hnew)
  · unfold updateJewelryItem
    by_cases h : u.name = none ∧ u.price = none ∧ u.stock_quantity = none ∧
        u.is_featured = none
    · rw [if_pos h]
    · rw [if_neg h]
      cases hfind : db2.jewelryItems.find? fun j => j.id == u.id <;> rfl
  · unfold updateJewelryItem
    by_cases h : u.name = none ∧ u.price = none ∧ u.stock_quantity = none ∧
        u.is_featured = none
    · rw [if_pos h]
    · rw [if_neg h]
      cases hfind : db2.jewelryItems.find? fun j => j.id == u.id <;> rfl

/-- Witness for the price-snapshot claim: successful two-line order, then a
price edit raising the ring price to 2999. -/
theorem price_at_time_snapshots_and_catalog_edits_frame_witness :
    (∃ c ∈ (DB.mk [⟨1, "Ring", 1999, 5, true⟩, ⟨2, "Earrings", 599, 10, false⟩]
        [⟨1, "sess-1", 1, 2⟩, ⟨2, "sess-1", 2, 1⟩] [] [] [] 3 1 1).cartItems,
        c.session_id = "sess-1") ∧
      (∀ oi ∈ (createOrder ⟨"sess-1", "John Doe", "john@example.com", none, "123 Main St", none, none⟩
          (DB.mk [⟨1, "Ring", 1999, 5, true⟩, ⟨2, "Earrings", 599, 10, false⟩]
            [⟨1, "sess-1", 1, 2⟩, ⟨2, "sess-1", 2, 1⟩] [] [] [] 3 1 1)).2.orderItems,
        oi ∈ (DB.mk [⟨1, "Ring", 1999, 5, true⟩, ⟨2, "Earrings", 599, 10, false⟩]
            [⟨1, "sess-1", 1, 2⟩, ⟨2, "sess-1", 2, 1⟩] [] [] ([] : List AdminUser) 3 1 1).orderItems ∨
          ∃ p ∈ sessionLines (DB.mk [⟨1, "Ring", 1999, 5, true⟩, ⟨2, "Earrings", 599, 10, false⟩]
            [⟨1, "sess-1", 1, 2⟩, ⟨2, "sess-1", 2, 1⟩] [] [] [] 3 1 1) "sess-1",
            oi.jewelry_item_id = p.2.id ∧ oi.quantity = p.1.quantity ∧
              oi.price_at_time = p.2.price) ∧
      (updateJewelryItem ⟨1, none, some 2999, none, none⟩
        (DB.mk [⟨1, "Ring", 1997, 3, true⟩] [] [] [⟨1, 1, 1, 2, 1999⟩] [] 2 2 2)).2.orderItems =
        (DB.mk [⟨1, "Ring", 1997, 3, true⟩] [] [] [⟨1, 1, 1, 2, 1999⟩] ([] : List AdminUser) 2 2 2).orderItems :=
  ⟨by decide,
    (price_at_time_snapshots_and_catalog_edits_frame
      ⟨"sess-1", "John Doe", "john@example.com", none, "123 Main St", none, none⟩
      (DB.mk [⟨1, "Ring", 1999, 5, true⟩, ⟨2, "Earrings", 599, 10, false⟩]
        [⟨1, "sess-1", 1, 2⟩, ⟨2, "sess-1", 2, 1⟩] [] [] [] 3 1 1)
      ⟨1, none, some 2999, none, none⟩
      (DB.mk [⟨1, "Ring", 1997, 3, true⟩] [] [] [⟨1, 1, 1, 2, 1999⟩] [] 2 2 2)
      (by decide) (by decide)).1,
    (price_at_time_snapshots_and_catalog_edits_frame
      ⟨"sess-1", "John Doe", "john@example.com", none, "123 Main St", none, none⟩
      (DB.mk [⟨1, "Ring", 1999, 5, true⟩, ⟨2, "Earrings", 599, 10, false⟩]
        [⟨1, "sess-1", 1, 2⟩, ⟨2, "sess-1", 2, 1⟩] [] [] [] 3 1 1)
      ⟨1, none, some 2999, none, none⟩
      (DB.mk [⟨1, "Ring", 1997, 3, true⟩] [] [] [⟨1, 1, 1, 2, 1999⟩] [] 2 2 2)
      (by decide) (by decide)).2.1⟩

/-- JSON scalar values occurring in JWT payload claims. -/
inductive JVal where
  | num (n : Int)
  | str (s : String)
deriving DecidableEq

/-- JavaScript truthiness of a defined JSON scalar: `0` and `""` are falsy. -/
def JVal.truthy : JVal → Bool
  | .num n => n != 0
  | .str s => s != ""

/-- JavaScript `a || b` over possibly-undefined scalars (`none` is
`undefined`, which is falsy). -/
def jsOr (a b : Option JVal) : Option JVal :=
  match a with
  | some v => if v.truthy then some v else b
  | none => b

/-- Decoded JWT payload with the claims the two handlers read or write.
Absent claims are `none` (JavaScript `undefined`). -/
structure Payload where
  sub : Option JVal := none
  userId : Option JVal := none
  id : Option JVal := none
  username : Option JVal := none
  email : Option JVal := none
  iat : Option JVal := none
  exp : Option JVal := none
deriving DecidableEq

/-- Idealised HMAC-SHA256 tag over the encoded payload: the tag determines
(and is determined by) the signing secret and the signed bytes, so
verification succeeds exactly when the verifier's secret and the received
payload reproduce the tag.  Collisions and forgeries are out of model. -/
structure Sig where
  secret : String
  signedPayload : Payload
deriving DecidableEq

/-- A wire token as the verifier sees it after `token.split('.')`:
either garbage (wrong part count, or base64/JSON decoding throws, which the
handler's catch-all turns into `null` — the empty string is
`Token.garbage [""]`), or a decoded payload with its signature tag. -/
inductive Token where
  | garbage (parts : List String)
  | signed (payload : Payload) (sig : Sig)
deriving DecidableEq

/-- Idealised collision-free salted password hash standing in for
`Bun.password.hash`; `Bun.password.verify pw h` is modelled as
`hashPassword pw = h`. -/
def hashPassword (pw : String) : String :=
  String.append "bcrypt$" pw

/-- Expiry test of verify_admin_token.ts line 26:
`if (payload.exp && Date.now() >= payload.exp * 1000)`.  A missing claim is
falsy and skips the check; so does the numeric value `0` and any string
value (for a non-empty string the JavaScript comparison against `NaN` is
false). -/
def tokenExpired (nowMs : Int) (p : Payload) : Bool :=
  match p.exp with
  | some (.num e) => if e != 0 then decide (e * 1000 ≤ nowMs) else false
  | _ => false

/-- Subject extraction of verify_admin_token.ts lines 54-58:
`const userId = payload.sub || payload.userId;` followed by
`if (!userId || typeof userId !== 'number') return null`. -/
def payloadUserId (p : Payload) : Option Int :=
  match jsOr p.sub p.userId with
  | some (.num n) => if n != 0 then some n else none
  | _ => none

/-- The `verifyAdminToken` handler of
src/server/src/handlers/verify_admin_token.ts: reject garbage, then check
expiry, then the HMAC tag against the process secret, then extract the
numeric subject, then look the admin up; any failure yields `null` and the
function is total (the catch-all swallows exceptions). -/
def verifyAdminToken (nowMs : Int) (secret : String) (admins : List AdminUser) :
    Token → Option AdminUser
  | .garbage _ => none
  | .signed p sig =>
      if tokenExpired nowMs p then none
      else if sig.secret = secret ∧ sig.signedPayload = p then
        match payloadUserId p with
        | none => none
        | some uid => admins.find? fun a => a.id == uid
      else none

/-- `AdminLoginInput` of schema.ts. -/
structure AdminLoginInput where
  username : String
  password : String
deriving DecidableEq

/-- Payload signed by admin_login.ts lines 30-38: `jwt.sign` embeds the
custom claims `{id, username, email}` plus the standard `iat` and (from
`expiresIn: '24h'`) `exp = iat + 86400`; it sets no `sub` claim. -/
def loginPayload (admin : AdminUser) (nowSec : Int) : Payload :=
  { id := some (.num admin.id)
    username := some (.str admin.username)
    email := some (.str admin.email)
    iat := some (.num nowSec)
    exp := some (.num (nowSec + 86400)) }

/-- The `adminLogin` handler of src/server/src/handlers/admin_login.ts:
look the admin up by exact username, verify the password against the
stored hash, and on success sign the token with the process secret. -/
def adminLogin (nowSec : Int) (secret : String) (admins : List AdminUser)
    (input : AdminLoginInput) : Option Token :=
  match admins.find? fun a => a.username == input.username with
  | none => none
  | some admin =>
      if hashPassword input.password = admin.password_hash then
        some (Token.signed (loginPayload admin nowSec)
          ⟨secret, loginPayload admin nowSec⟩)
      else none

/-- C5: the login/verify round trip fails on the code.  `adminLogin`
succeeds for a stored principal with the correct password and issues a
token that is correctly signed with the verifier's secret and unexpired an
hour later — yet `verifyAdminToken` returns `null` for it, because the
login payload carries the principal id under the custom claim `id`
while the verifier only reads `payload.sub || payload.userId`. -/
theorem login_token_never_verifies :
    adminLogin 1760000000 "default-secret-key"
        [⟨1, "admin", "admin@example.com", hashPassword "hunter2"⟩]
        ⟨"admin", "hunter2"⟩ =
      some (Token.signed
        (loginPayload ⟨1, "admin", "admin@example.com", hashPassword "hunter2"⟩ 1760000000)
        ⟨"default-secret-key",
          loginPayload ⟨1, "admin", "admin@example.com", hashPassword "hunter2"⟩ 1760000000⟩) ∧
    tokenExpired 1760003600000
      (loginPayload ⟨1, "admin", "admin@example.com", hashPassword "hunter2"⟩ 1760000000) = false ∧
    (loginPayload ⟨1, "admin", "admin@example.com", hashPassword "hunter2"⟩ 1760000000).id =
      some (JVal.num 1) ∧
    payloadUserId
      (loginPayload ⟨1, "admin", "admin@example.com", hashPassword "hunter2"⟩ 1760000000) = none ∧
    verifyAdminToken 1760003600000 "default-secret-key"
        [⟨1, "admin", "admin@example.com", hashPassword "hunter2"⟩]
        (Token.signed
          (loginPayload ⟨1, "admin", "admin@example.com", hashPassword "hunter2"⟩ 1760000000)
          ⟨"default-secret-key",
            loginPayload ⟨1, "admin", "admin@example.com", hashPassword "hunter2"⟩ 1760000000⟩) =
      none := by
  refine ⟨?_, ?_, ?_, ?_, ?_⟩ <;> decide

/-- Counterexample to the literal expiry clause of the verifier claim:
a correctly signed token whose `exp` claim is the timestamp `0`
(1970-01-01, far in the past at the modelled call time) is accepted, not
rejected — the JavaScript truthiness test `payload.exp &&` skips the expiry
comparison for the value `0`. -/
theorem verify_accepts_zero_expiry_in_past :
    (0 : Int) * 1000 ≤ 1760000000000 ∧
    verifyAdminToken 1760000000000 "default-secret-key"
        [⟨1, "admin", "admin@example.com", "h"⟩]
        (Token.signed { sub := some (.num 1), exp := some (.num 0) }
          ⟨"default-secret-key", { sub := some (.num 1), exp := some (.num 0) }⟩) =
      some ⟨1, "admin", "admin@example.com", "h"⟩ := by
  refine ⟨by decide, by decide⟩

/-- C7 (amended): `verifyAdminToken` returns `null` for every structurally
malformed input (in particular the empty string, which splits into one
part) with no exception escaping, for every token signed with a different
secret, for every token carrying a nonzero `exp` timestamp in the past,
and for every token whose subject resolves to no stored principal. -/
theorem verify_null_on_invalid_tokens (nowMs : Int) (secret : String)
    (admins : List AdminUser) :
    (∀ parts, verifyAdminToken nowMs secret admins (.garbage parts) = none) ∧
    (∀ p sig, sig.secret ≠ secret →
      verifyAdminToken nowMs secret admins (.signed p sig) = none) ∧
    (∀ p sig e, p.exp = some (.num e) → e ≠ 0 → e * 1000 ≤ nowMs →
      verifyAdminToken nowMs secret admins (.signed p sig) = none) ∧
    (∀ p sig uid, payloadUserId p = some uid → (∀ a ∈ admins, a.id ≠ uid) →
      verifyAdminToken nowMs secret admins (.signed p sig) = none) := by
  refine ⟨fun parts => rfl, ?_, ?_, ?_⟩
  · intro p sig h
    simp only [verifyAdminToken]
    by_cases hexp : tokenExpired nowMs p = true
    · rw [if_pos hexp]
    · rw [if_neg hexp, if_neg (fun hc => h hc.1)]
  · intro p sig e he hne hle
    have hexp : tokenExpired nowMs p = true := by
      simp only [tokenExpired, he]
      simp [hne, hle]
    simp only [verifyAdminToken]
    rw [if_pos hexp]
  · intro p sig uid hu ha
    simp only [verifyAdminToken]
    by_cases hexp : tokenExpired nowMs p = true
    · rw [if_pos hexp]
    · rw [if_neg hexp]
      by_cases hsig : sig.secret = secret ∧ sig.signedPayload = p
      · rw [if_pos hsig, hu]
        exact List.find?_eq_none.mpr fun a hmem => by simpa using ha a hmem
      · rw [if_neg hsig]

/-- Witness for the amended verifier claim: concrete rejections of the
empty string, a wrong-secret signature, a stale nonzero expiry, and a
dangling subject. -/
theorem verify_null_on_invalid_tokens_witness :
    verifyAdminToken 1760000000000 "default-secret-key"
        [⟨1, "admin", "admin@example.com", "h"⟩] (.garbage [""]) = none ∧
    verifyAdminToken 1760000000000 "default-secret-key"
        [⟨1, "admin", "admin@example.com", "h"⟩]
        (.signed { sub := some (.num 1), exp := some (.num 1790000000) }
          ⟨"wrong-secret", { sub := some (.num 1), exp := some (.num 1790000000) }⟩) = none ∧
    verifyAdminToken 1760000000000 "default-secret-key"
        [⟨1, "admin", "admin@example.com", "h"⟩]
        (.signed { sub := some (.num 1), exp := some (.num 1000000) }
          ⟨"default-secret-key", { sub := some (.num 1), exp := some (.num 1000000) }⟩) = none ∧
    verifyAdminToken 1760000000000 "default-secret-key"
        [⟨1, "admin", "admin@example.com", "h"⟩]
        (.signed { sub := some (.num 99), exp := some (.num 1790000000) }
          ⟨"default-secret-key", { sub := some (.num 99), exp := some (.num 1790000000) }⟩) = none :=
  ⟨(verify_null_on_invalid_tokens 1760000000000 "default-secret-key"
      [⟨1, "admin", "admin@example.com", "h"⟩]).1 [""],
    (verify_null_on_invalid_tokens 1760000000000 "default-secret-key"
      [⟨1, "admin", "admin@example.com", "h"⟩]).2.1
      { sub := some (.num 1), exp := some (.num 1790000000) }
      ⟨"wrong-secret", { sub := some (.num 1), exp := some (.num 1790000000) }⟩
      (by decide),
    (verify_null_on_invalid_tokens 1760000000000 "default-secret-key"
      [⟨1, "admin", "admin@example.com", "h"⟩]).2.2.1
      { sub := some (.num 1), exp := some (.num 1000000) }
      ⟨"default-secret-key", { sub := some (.num 1), exp := some (.num 1000000) }⟩
      1000000 (by decide) (by decide) (by decide),
    (verify_null_on_invalid_tokens 1760000000000 "default-secret-key"
      [⟨1, "admin", "admin@example.com", "h"⟩]).2.2.2
      { sub := some (.num 99), exp := some (.num 1790000000) }
      ⟨"default-secret-key", { sub := some (.num 99), exp := some (.num 1790000000) }⟩
      99 (by decide) (by decide)⟩

/-- `CreateJewelryItemInput` of schema.ts (display-only columns elided;
`is_featured` is optional and defaults to `false` in the handler). -/
structure CreateJewelryItemInput where
  name : String
  price : Int
  stock_quantity : Int
  is_featured : Option Bool
deriving DecidableEq

/-- The `createJewelryItem` handler of
src/server/src/handlers/create_jewelry_item.ts: insert one row with the
next serial id, applying the `is_featured || false` default. -/
def createJewelryItem (inp : CreateJewelryItemInput) (db : DB) :
    JewelryItem × DB :=
  let j : JewelryItem :=
    { id := db.nextJewelryItemId
      name := inp.name
      price := inp.price
      stock_quantity := inp.stock_quantity
      is_featured := inp.is_featured.getD false }
  (j, { db with
        jewelryItems := db.jewelryItems ++ [j]
        nextJewelryItemId := db.nextJewelryItemId + 1 })

/-- The `deleteJewelryItem` handler of
src/server/src/handlers/delete_jewelry_item.ts: delete by id, reporting
whether a row was deleted. -/
def deleteJewelryItem (id : Int) (db : DB) : Bool × DB :=
  (db.jewelryItems.any fun j => j.id == id,
    { db with jewelryItems := db.jewelryItems.filter fun j => j.id != id })

/-- The `updateOrderStatus` handler of the repository: set the status of
the matching order (its items view is display-only and elided), or return
`null` when the id matches no order. -/
def updateOrderStatus (id : Int) (st : OrderStatus) (db : DB) :
    Option Order × DB :=
  match db.orders.find? fun o => o.id == id with
  | none => (none, db)
  | some o =>
      (some { o with status := st },
        { db with orders := db.orders.map fun x =>
            if x.id == id then { x with status := st } else x })

/-- One mutating admin request of the tRPC router in
src/server/src/index.ts. -/
inductive AdminMutation where
  | createItem (input : CreateJewelryItemInput)
  | updateItem (input : UpdateJewelryItemInput)
  | deleteItem (id : Int)
  | orderStatus (id : Int) (status : OrderStatus)
deriving DecidableEq

/-- Successful response of a mutating admin procedure. -/
inductive AdminResponse where
  | createdItem (j : JewelryItem)
  | updatedItem (j : Option JewelryItem)
  | deletedItem (ok : Bool)
  | updatedOrder (o : Option Order)
deriving DecidableEq

/-- The guarded admin procedures of src/server/src/index.ts
(`createJewelryItem`, `updateJewelryItem`, `deleteJewelryItem`,
`updateOrderStatus`): each first awaits `verifyAdminToken(input.token)` and
throws `Unauthorized: Invalid admin token` before calling its handler when
the result is `null`. -/
def handleAdminMutation (nowMs : Int) (secret : String) (token : Token)
    (m : AdminMutation) (db : DB) : Except String AdminResponse × DB :=
  match verifyAdminToken nowMs secret db.adminUsers token with
  | none => (Except.error "Unauthorized: Invalid admin token", db)
  | some _ =>
      match m with
      | .createItem inp =>
          let r := createJewelryItem inp db
          (Except.ok (.createdItem r.1), r.2)
      | .updateItem u =>
          let r := updateJewelryItem u db
          (Except.ok (.updatedItem r.1), r.2)
      | .deleteItem i =>
          let r := deleteJewelryItem i db
          (Except.ok (.deletedItem r.1), r.2)
      | .orderStatus i st =>
          let r := updateOrderStatus i st db
          (Except.ok (.updatedOrder r.1), r.2)

/-- C6: every mutating admin endpoint runs `verifyAdminToken` on the
supplied token before dispatch, and whenever the verifier returns `null`
the request fails with the authorization error and the database is exactly
the database before the call — no side effect of any handler executes. -/
theorem admin_mutations_reject_unverified_before_side_effects
    (nowMs : Int) (secret : String) (token : Token) (m : AdminMutation)
    (db : DB)
    (h : verifyAdminToken nowMs secret db.adminUsers token = none) :
    handleAdminMutation nowMs secret token m db =
      (Except.error "Unauthorized: Invalid admin token", db) := by
  unfold handleAdminMutation
  rw [h]

/-- Witness for the guarded-endpoints claim: a garbage token attempting a
catalog deletion against a one-item database. -/
theorem admin_mutations_reject_unverified_before_side_effects_witness :
    verifyAdminToken 1760000000000 "default-secret-key"
        (DB.mk [⟨1, "Ring", 1999, 5, true⟩] [] [] [] [⟨1, "admin", "a@b.c", "h"⟩] 2 1 1).adminUsers
        (.garbage ["not-a-jwt-at-all"]) = none ∧
      handleAdminMutation 1760000000000 "default-secret-key"
          (.garbage ["not-a-jwt-at-all"]) (.deleteItem 1)
          (DB.mk [⟨1, "Ring", 1999, 5, true⟩] [] [] [] [⟨1, "admin", "a@b.c", "h"⟩] 2 1 1) =
        (Except.error "Unauthorized: Invalid admin token",
          DB.mk [⟨1, "Ring", 1999, 5, true⟩] [] [] [] [⟨1, "admin", "a@b.c", "h"⟩] 2 1 1) :=
  ⟨by decide,
    admin_mutations_reject_unverified_before_side_effects
      1760000000000 "default-secret-key" (.garbage ["not-a-jwt-at-all"])
      (.deleteItem 1)
      (DB.mk [⟨1, "Ring", 1999, 5, true⟩] [] [] [] [⟨1, "admin", "a@b.c", "h"⟩] 2 1 1)
      (by decide)⟩

/-- Bit length of a natural number, with structural fuel (256 bits covers
every quantity arising here). -/
def bitsAux : Nat → Nat → Nat
  | 0, _ => 0
  | fuel+1, n => if n = 0 then 0 else bitsAux fuel (n / 2) + 1

/-- Bit length of a natural number below `2 ^ 256`. -/
def bits (n : Nat) : Nat := bitsAux 256 n

/-- A finite IEEE-754 binary64 value `m · 2 ^ e` (exponent range and NaN
are irrelevant at the magnitudes of this analysis). -/
structure F64 where
  m : Int
  e : Int
deriving DecidableEq

/-- Negation of a binary64 value. -/
def F64.neg (x : F64) : F64 := { m := -x.m, e := x.e }

/-- Round the exact value `(m + frac) · 2 ^ e`, `0 ≤ frac < 1`, to 53
significant bits, to nearest with ties to even; `sticky` records
`frac ≠ 0`.  Callers pass `sticky = true` only with `2 ^ 63 ≤ m`, so the
exact-fit branch is sound. -/
def roundPosMant (m : Nat) (e : Int) (sticky : Bool) : F64 :=
  if m < 2 ^ 53 then { m := (m : Int), e := e }
  else
    let t := bits m - 53
    let q := m / 2 ^ t
    let r := m % 2 ^ t
    let roundUp :=
      if 2 * r > 2 ^ t then true
      else if 2 * r < 2 ^ t then false
      else if sticky then true
      else q % 2 = 1
    let q2 := if roundUp then q + 1 else q
    if q2 = 2 ^ 53 then { m := (2 : Int) ^ 52, e := e + t + 1 }
    else { m := (q2 : Int), e := e + t }

/-- Signed 53-bit rounding (round to nearest even is symmetric). -/
def roundMant (m : Int) (e : Int) (sticky : Bool) : F64 :=
  if m < 0 then F64.neg (roundPosMant (-m).toNat e sticky)
  else roundPosMant m.toNat e sticky

/-- `parseFloat` applied to the decimal numeric string
`units / 10 ^ scale` (line 44 of src/unnamed/part_003): the nearest
binary64 value of the exact decimal. -/
def parseDec (units : Int) (scale : Nat) : F64 :=
  if units = 0 then { m := 0, e := 0 }
  else
    let b := 10 ^ scale
    let k := 64 + bits b
    let n := units.natAbs * 2 ^ k
    let f := roundPosMant (n / b) (-(k : Int)) (decide (n % b ≠ 0))
    if units < 0 then F64.neg f else f

/-- The JavaScript number holding an integer quantity. -/
def F64.ofInt (n : Int) : F64 := roundMant n 0 false

/-- Binary64 addition: exact sum, then one rounding. -/
def fadd (x y : F64) : F64 :=
  let e := min x.e y.e
  roundMant (x.m * 2 ^ (x.e - e).toNat + y.m * 2 ^ (y.e - e).toNat) e false

/-- Binary64 multiplication: exact product, then one rounding. -/
def fmul (x y : F64) : F64 := roundMant (x.m * y.m) (x.e + y.e) false

/-- Lines 41-46 of src/unnamed/part_003 exactly as executed:
`totalAmount = 0; for (...) totalAmount += parseFloat(price) * quantity`,
in binary64.  Each line is (price units, price scale, quantity), the price
being the numeric string `units / 10 ^ scale`. -/
def totalAmountFl (lines : List (Int × Nat × Int)) : F64 :=
  lines.foldl
    (fun acc l => fadd acc (fmul (parseDec l.1 l.2.1) (F64.ofInt l.2.2)))
    { m := 0, e := 0 }

/-- Exact rational value of a binary64 quantity. -/
def F64.val (x : F64) : ℚ :=
  if 0 ≤ x.e then (x.m : ℚ) * 2 ^ x.e.toNat else (x.m : ℚ) / 2 ^ (-x.e).toNat

/-- Exact arithmetic total of the same cart lines:
`Σ (units / 10 ^ scale) × quantity` over ℚ. -/
def exactDecTotal (lines : List (Int × Nat × Int)) : ℚ :=
  (lines.map fun l => ((l.1 : ℚ) / 10 ^ l.2.1) * (l.2.2 : ℚ)).sum

set_option maxRecDepth 8000 in
/-- C4: the total of the spec's concrete scenario — integer-cent prices
1999 × qty 2 and 599 × qty 1 — does come out exactly 4597, because binary64
arithmetic is exact on such small integers; but the computation of
lines 41-46 is floating-point accumulation over `parseFloat`-parsed numeric
strings, not integer-cents arithmetic: for the decimal prices 0.1 and 0.2
(quantity 1 each, both legal `z.number().positive()` prices) the computed
total differs from the exact sum `Σ price × quantity`. -/
theorem totalAmount_is_float_accumulation_not_integer_cents :
    (totalAmountFl [(1999, 0, 2), (599, 0, 1)]).val =
      exactDecTotal [(1999, 0, 2), (599, 0, 1)] ∧
    (totalAmountFl [(1999, 0, 2), (599, 0, 1)]).val = 4597 ∧
    (totalAmountFl [(1, 1, 1), (2, 1, 1)]).val ≠
      exactDecTotal [(1, 1, 1), (2, 1, 1)] := by
  have h1 : totalAmountFl [(1999, 0, 2), (599, 0, 1)] =
      { m := 5054454952886272, e := -40 } := by decide
  have h2 : totalAmountFl [(1, 1, 1), (2, 1, 1)] =
      { m := 5404319552844596, e := -54 } := by decide
  refine ⟨?_, ?_, ?_⟩
  · rw [h1]
    unfold F64.val exactDecTotal
    norm_num
    rw [show Int.toNat (40 : Int) = (40 : Nat) from rfl]
    norm_num
  · rw [h1]
    unfold F64.val
    norm_num
    rw [show Int.toNat (40 : Int) = (40 : Nat) from rfl]
    norm_num
  · rw [h2]
    unfold F64.val exactDecTotal
    norm_num
    rw [show Int.toNat (54 : Int) = (54 : Nat) from rfl]
    norm_num
